import Mathlib

/-!
Verification development for the PTT voice-capture controller.

Shallow embedding of:
  * the stubbed transcription service (`StubVoiceApi`, from
    `src/services/voice-api/stub-voice-api.ts`),
  * the recorder (`AudioService`, from `src/services/audio/audio-service.ts`),
  * the Zustand voice store (`VoiceStore`, from `src/store/voice-store.ts`,
    the revision with the `recorded` state and `saveRecording` action).

Asynchrony is flattened: each store action runs to completion, and the
delayed callbacks (the 100ms duration tick and the auto-expire timers for
the `result` and `clarification` states) are modelled as separate events
that can fire at any time, exactly as their queued callbacks can in the
source.  Ambient nondeterminism (permission prompt outcomes, platform
recorder faults, generated uris/ids/timestamps) is supplied by an `Env`
record attached to each event.  Machine randomness (UUIDs, clarification
ids) is therefore an oracle input, and the service's simulated latency is
dropped since no result is produced before it elapses.
-/

/-- App state discriminated union (`AppState` in `voice-store.ts`). -/
inductive ErrorType
  | network
  | server
deriving DecidableEq

inductive AppState
  | idle
  | checkingPermission
  | permissionDenied (message : String)
  | listening (duration : Nat)
  | recorded (duration : Nat) (audioUri : String)
  | processing
  | result (transcript : String)
  | clarification (prompt : String) (clarificationId : String)
  | error (message : String) (errorType : ErrorType)
      (audioUri : Option String) (duration : Option Nat)
deriving DecidableEq

/-- `true` exactly on the `listening` variant. -/
def AppState.isListeningB : AppState → Bool
  | .listening _ => true
  | _ => false

/-- `true` exactly on the `result` variant. -/
def AppState.isResultB : AppState → Bool
  | .result _ => true
  | _ => false

/-- `true` exactly on the `clarification` variant. -/
def AppState.isClarificationB : AppState → Bool
  | .clarification _ _ => true
  | _ => false

/-- Transcript entry in history (`Transcript` in `voice-store.ts`). -/
structure Transcript where
  id : String
  text : String
  timestamp : String
  audioUri : Option String
deriving DecidableEq

/-- API scenario enum (`ApiScenario` in `voice-api/types.ts`). -/
inductive ApiScenario
  | success
  | clarification
  | networkError
  | serverError
deriving DecidableEq

/-- Clarification context record, used both as the store-level slot and as
the `context` field of a `processVoice` input. -/
structure ClarCtx where
  clarificationId : String
  previousPrompt : String
deriving DecidableEq

/-- Input of `processVoice` (`ProcessVoiceInput` in `voice-api/types.ts`);
the `clientTs` wall-clock field is dropped, the service never reads it. -/
structure ProcessVoiceInput where
  audioUri : String
  mimeType : String
  context : Option ClarCtx
deriving DecidableEq

/-- Successful `processVoice` result (`ProcessVoiceResult`). -/
inductive ProcessVoiceResult
  | ok (transcript : String)
  | clarification (prompt : String) (clarificationId : String)
deriving DecidableEq

/-- Error code of a rejected `processVoice` call. -/
inductive ErrCode
  | NETWORK
  | SERVER
deriving DecidableEq

/-- Rejection payload of `processVoice` (`ProcessVoiceError`). -/
structure ProcessVoiceError where
  code : ErrCode
  message : String
deriving DecidableEq

/-- The stubbed voice API's mutable fields: current scenario and the
`clarificationState` map (modelled as an association list; `set` prepends
a canonical entry, `delete` filters the key out). -/
structure StubVoiceApi where
  scenario : ApiScenario
  clarificationState : List (String × Nat)
deriving DecidableEq

/-- `StubVoiceApi.setScenario`: store the scenario and clear the
clarification bookkeeping. -/
def StubVoiceApi.setScenario (api : StubVoiceApi) (sc : ApiScenario) : StubVoiceApi :=
  { api with scenario := sc, clarificationState := [] }

/-- `StubVoiceApi.handleClarification`: a follow-up call whose context
carries a known clarification id resolves to the fixed follow-up
transcript and forgets the id; any other call returns the clarification
prompt under a freshly generated id (`freshId`, the oracle's choice). -/
def StubVoiceApi.handleClarification (api : StubVoiceApi) (input : ProcessVoiceInput)
    (freshId : String) : ProcessVoiceResult × StubVoiceApi :=
  let firstCall : ProcessVoiceResult × StubVoiceApi :=
    (.clarification "What time should I set it for?" freshId,
     { api with clarificationState :=
         (freshId, 1) :: api.clarificationState.filter (fun p => p.1 != freshId) })
  match input.context with
  | some ctx =>
    if 0 < ((api.clarificationState.lookup ctx.clarificationId).getD 0) then
      (.ok "Alarm set for 7:00 AM.",
       { api with clarificationState :=
           api.clarificationState.filter (fun p => p.1 != ctx.clarificationId) })
    else firstCall
  | none => firstCall

/-- `StubVoiceApi.processVoice`: dispatch on the current scenario; the
error scenarios reject (modelled as `Except.error`). -/
def StubVoiceApi.processVoice (api : StubVoiceApi) (input : ProcessVoiceInput)
    (freshId : String) : Except ProcessVoiceError ProcessVoiceResult × StubVoiceApi :=
  match api.scenario with
  | .success => (.ok (.ok "Added \x27milk\x27 to your shopping list."), api)
  | .clarification =>
    let r := api.handleClarification input freshId
    (.ok r.1, r.2)
  | .networkError => (.error ⟨.NETWORK, "Network error. Please try again."⟩, api)
  | .serverError => (.error ⟨.SERVER, "Something went wrong. Please try again."⟩, api)

/-- Recorder-side state of `AudioServiceImpl`: the active capture's uri
(`recording`, `none` when idle) and the polled duration counter. -/
structure AudioState where
  recording : Option String
  recordingDuration : Nat
deriving DecidableEq

/-- Typed recorder failures surfaced to the store's catch blocks. -/
inductive AudioError
  | startFailed
  | notRecording
  | stopFailed
deriving DecidableEq

/-- `AudioServiceImpl.startRecording`: when a capture is already active it
logs a warning and returns normally without touching any state; otherwise
a platform fault (`fault`, oracle-injected) aborts with the cleanup the
catch block performs, and the success path installs the fresh capture and
resets the duration counter to 0. -/
def AudioService.startRecording (a : AudioState) (freshUri : String) (fault : Bool) :
    Except AudioError Unit × AudioState :=
  if a.recording.isSome then (.ok (), a)
  else if fault then (.error .startFailed, { recording := none, recordingDuration := 0 })
  else (.ok (), { recording := some freshUri, recordingDuration := 0 })

/-- `AudioServiceImpl.stopRecording`: fails when no capture is active;
otherwise a platform fault rejects after the catch block's cleanup, and
the success path returns the finalized file's uri and duration, clearing
the capture slot. -/
def AudioService.stopRecording (a : AudioState) (fault : Bool) :
    Except AudioError (String × Nat) × AudioState :=
  match a.recording with
  | none => (.error .notRecording, a)
  | some uri =>
    if fault then (.error .stopFailed, { recording := none, recordingDuration := 0 })
    else (.ok (uri, a.recordingDuration), { recording := none, recordingDuration := 0 })

/-- `AudioServiceImpl.cancelRecording`: stops and discards an active
capture; a no-op when nothing is active. -/
def AudioService.cancelRecording (a : AudioState) : AudioState :=
  match a.recording with
  | none => a
  | some _ => { recording := none, recordingDuration := 0 }

/-- Observable side effects a store action issues towards its
collaborators, in program order. -/
inductive Effect
  | checkPermission
  | requestPermission
  | recorderStart
  | recorderStop
  | recorderCancel
  | apiCall
  | scheduleAuto
  | deleteFile (uri : String)
deriving DecidableEq

/-- The whole store: Zustand fields (`state`, `transcripts`,
`currentScenario`), the module-level `clarificationContext` slot and
`durationInterval` flag, the service singleton, the recorder state, and
the set of finalized capture files currently on disk. -/
structure Store where
  state : AppState
  transcripts : List Transcript
  currentScenario : ApiScenario
  clarificationContext : Option ClarCtx
  api : StubVoiceApi
  audio : AudioState
  files : List String
  ticking : Bool
deriving DecidableEq

/-- The store as created: idle, empty history, `success` scenario. -/
def initialStore : Store :=
  { state := .idle
    transcripts := []
    currentScenario := .success
    clarificationContext := none
    api := { scenario := .success, clarificationState := [] }
    audio := { recording := none, recordingDuration := 0 }
    files := []
    ticking := false }

/-- Record a finalized capture file (set-like insert). -/
def insertFile (uri : String) (files : List String) : List String :=
  if uri ∈ files then files else uri :: files

/-- `AudioService.deleteFile`: remove the file; silently idempotent. -/
def deleteFile (uri : String) (files : List String) : List String :=
  files.filter (fun u => u != uri)

/-- Ambient nondeterminism consumed by one store action: permission
outcomes, injected recorder faults, and the fresh uri / clarification id /
transcript id / timestamp the platform produces during the action. -/
structure Env where
  hasPermission : Bool
  granted : Bool
  startFault : Bool
  stopFault : Bool
  freshUri : String
  clarId : String
  transcriptId : String
  now : String
deriving DecidableEq

/-- Tail of `startRecording` after the permission gate: issue the
`AudioService.startRecording` call; its rejection is caught and mapped to
a server-class error state, success enters `listening 0` and starts the
duration interval. -/
def VoiceStore.startRecordingGranted (s : Store) (env : Env) (effs : List Effect) :
    Store × List Effect :=
  match AudioService.startRecording s.audio env.freshUri env.startFault with
  | (.error _, audio') =>
    ({ s with audio := audio'
              state := .error "Failed to start recording. Please try again." .server none none },
     effs ++ [Effect.recorderStart])
  | (.ok _, audio') =>
    ({ s with audio := audio', state := .listening 0, ticking := true },
     effs ++ [Effect.recorderStart])

/-- `startRecording` store action: unconditionally enters
`checkingPermission`, queries (and if needed requests) permission, then
starts the recorder.  The source has no guard against being called while
already listening or processing. -/
def VoiceStore.startRecording (s : Store) (env : Env) : Store × List Effect :=
  if env.hasPermission then
    VoiceStore.startRecordingGranted { s with state := .checkingPermission } env
      [Effect.checkPermission]
  else if env.granted then
    VoiceStore.startRecordingGranted { s with state := .checkingPermission } env
      [Effect.checkPermission, Effect.requestPermission]
  else
    ({ s with state := .permissionDenied "Microphone access is required to record audio. Please grant permission in your device settings." },
     [Effect.checkPermission, Effect.requestPermission])

/-- `stopRecording` store action: a guarded no-op unless `listening`;
when the recorder has no active capture it resets to `idle`; otherwise it
stops the recorder and shows the `recorded` Save/Cancel state, or maps a
recorder fault to a server-class error (no file was finalized then, so
the error state carries no handle). -/
def VoiceStore.stopRecording (s : Store) (env : Env) : Store × List Effect :=
  match s.state with
  | .listening _ =>
    if s.audio.recording.isSome then
      match AudioService.stopRecording s.audio env.stopFault with
      | (.ok r, audio') =>
        ({ s with ticking := false, audio := audio'
                  files := insertFile r.1 s.files
                  state := .recorded r.2 r.1 }, [Effect.recorderStop])
      | (.error _, audio') =>
        ({ s with ticking := false, audio := audio'
                  state := .error "Failed to stop recording. Please try again." .server none none },
         [Effect.recorderStop])
    else
      ({ s with ticking := false, state := .idle }, [])
  | _ => (s, [])

/-- The `processVoice` input built by `saveRecording` and
`retrySendRecording`: the recorded file plus the module-level
clarification context, if any. -/
def VoiceStore.saveInput (s : Store) (audioUri : String) : ProcessVoiceInput :=
  { audioUri := audioUri, mimeType := "audio/m4a", context := s.clarificationContext }

/-- The transcript entry appended on a successful transcription: fresh
id and timestamp from the environment, keeping the audio file handle for
playback. -/
def newTranscript (env : Env) (tr : String) (uri : String) : Transcript :=
  { id := env.transcriptId, text := tr, timestamp := env.now, audioUri := some uri }

/-- Shared continuation of `saveRecording` / `retrySendRecording` once
`processVoice` has settled: on `ok` prepend a transcript that keeps the
audio file for playback, clear the clarification slot and schedule the
auto-return; on `clarification` store the new context and schedule the
auto-return; on rejection classify the error, deleting the file only for
the server class and retaining handle and duration only for the network
class. -/
def VoiceStore.finishProcess (s : Store) (uri : String) (dur : Option Nat) (env : Env)
    (r : Except ProcessVoiceError ProcessVoiceResult) (api' : StubVoiceApi) :
    Store × List Effect :=
  match r with
  | .ok (.ok tr) =>
    ({ s with api := api'
              transcripts := newTranscript env tr uri :: s.transcripts
              state := .result tr
              clarificationContext := none },
     [Effect.apiCall, Effect.scheduleAuto])
  | .ok (.clarification p cid) =>
    ({ s with api := api'
              clarificationContext := some { clarificationId := cid, previousPrompt := p }
              state := .clarification p cid },
     [Effect.apiCall, Effect.scheduleAuto])
  | .error err =>
    if err.code = .NETWORK then
      ({ s with api := api', state := .error err.message .network (some uri) dur },
       [Effect.apiCall])
    else
      ({ s with api := api'
                files := deleteFile uri s.files
                state := .error err.message .server none none },
       [Effect.apiCall, Effect.deleteFile uri])

/-- `saveRecording` store action: guarded no-op unless `recorded`; enters
`processing`, calls the service, then continues in
`VoiceStore.finishProcess`. -/
def VoiceStore.saveRecording (s : Store) (env : Env) : Store × List Effect :=
  match s.state with
  | .recorded d uri =>
    VoiceStore.finishProcess { s with state := .processing } uri (some d) env
      (s.api.processVoice (VoiceStore.saveInput s uri) env.clarId).1
      (s.api.processVoice (VoiceStore.saveInput s uri) env.clarId).2
  | _ => (s, [])

/-- `retrySendRecording` store action: guarded no-op unless in an error
state that retained an audio handle; re-sends that file through the same
continuation. -/
def VoiceStore.retrySendRecording (s : Store) (env : Env) : Store × List Effect :=
  match s.state with
  | .error _ _ (some uri) dOpt =>
    VoiceStore.finishProcess { s with state := .processing } uri dOpt env
      (s.api.processVoice (VoiceStore.saveInput s uri) env.clarId).1
      (s.api.processVoice (VoiceStore.saveInput s uri) env.clarId).2
  | _ => (s, [])

/-- `cancelRecording` store action: from `listening` stop ticking, cancel
the capture and go idle; from `recorded` delete the finalized file and go
idle; otherwise nothing. -/
def VoiceStore.cancelRecording (s : Store) : Store × List Effect :=
  match s.state with
  | .listening _ =>
    ({ s with ticking := false, audio := AudioService.cancelRecording s.audio
              state := .idle },
     [Effect.recorderCancel])
  | .recorded _ uri =>
    ({ s with files := deleteFile uri s.files, state := .idle },
     [Effect.deleteFile uri])
  | _ => (s, [])

/-- `dismissError` store action: delete a retained audio file if present,
then return to idle (the idle transition is unconditional in source). -/
def VoiceStore.dismissError (s : Store) : Store × List Effect :=
  match s.state with
  | .error _ _ (some uri) _ =>
    ({ s with files := deleteFile uri s.files, state := .idle },
     [Effect.deleteFile uri])
  | _ => ({ s with state := .idle }, [])

/-- `dismissPermissionDenied` store action. -/
def VoiceStore.dismissPermissionDenied (s : Store) : Store × List Effect :=
  ({ s with state := .idle }, [])

/-- `setScenario` store action: forwards to the service (which clears its
clarification map) and records the selection; nothing else is touched. -/
def VoiceStore.setScenario (s : Store) (sc : ApiScenario) : Store × List Effect :=
  ({ s with api := s.api.setScenario sc, currentScenario := sc }, [])

/-- The 100ms duration-interval callback: reads the recorder's duration
(`d`, the value the service reported) and re-publishes `listening` only
if the state still is `listening`. -/
def VoiceStore.durationTick (s : Store) (d : Nat) : Store × List Effect :=
  match s.state with
  | .listening _ => ({ s with state := .listening d }, [])
  | _ => (s, [])

/-- The deferred auto-return callback scheduled for the `result` state:
goes idle only if the state still is `result`. -/
def VoiceStore.autoExpireResult (s : Store) : Store × List Effect :=
  match s.state with
  | .result _ => ({ s with state := .idle }, [])
  | _ => (s, [])

/-- The deferred auto-return callback scheduled for the `clarification`
state: goes idle only if the state still is `clarification`. -/
def VoiceStore.autoExpireClarification (s : Store) : Store × List Effect :=
  match s.state with
  | .clarification _ _ => ({ s with state := .idle }, [])
  | _ => (s, [])

/-- One event of an execution: a user intent with its ambient
nondeterminism, or a delayed callback firing. -/
inductive Event
  | startRecording (env : Env)
  | stopRecording (env : Env)
  | saveRecording (env : Env)
  | retrySendRecording (env : Env)
  | cancelRecording
  | dismissError
  | dismissPermissionDenied
  | retryPermission (env : Env)
  | setScenario (sc : ApiScenario)
  | tick (d : Nat)
  | autoExpireResult
  | autoExpireClarification
deriving DecidableEq

/-- Small-step semantics of the controller: dispatch one event
(`retryPermission` re-runs `startRecording`, as in source). -/
def step (s : Store) (e : Event) : Store × List Effect :=
  match e with
  | .startRecording env => VoiceStore.startRecording s env
  | .stopRecording env => VoiceStore.stopRecording s env
  | .saveRecording env => VoiceStore.saveRecording s env
  | .retrySendRecording env => VoiceStore.retrySendRecording s env
  | .cancelRecording => VoiceStore.cancelRecording s
  | .dismissError => VoiceStore.dismissError s
  | .dismissPermissionDenied => VoiceStore.dismissPermissionDenied s
  | .retryPermission env => VoiceStore.startRecording s env
  | .setScenario sc => VoiceStore.setScenario s sc
  | .tick d => VoiceStore.durationTick s d
  | .autoExpireResult => VoiceStore.autoExpireResult s
  | .autoExpireClarification => VoiceStore.autoExpireClarification s

/-- Post-state of one event. -/
def stepStore (s : Store) (e : Event) : Store := (step s e).1

/-- Effects issued by one event. -/
def stepEffects (s : Store) (e : Event) : List Effect := (step s e).2

/-- A concrete environment used by the concrete evaluations below:
permission granted, no recorder faults, fixed fresh identifiers. -/
def demoEnv : Env :=
  { hasPermission := true, granted := true, startFault := false, stopFault := false
    freshUri := "file:rec2.m4a", clarId := "cl1", transcriptId := "t1", now := "ts1" }

/-- A store paused in the Save/Cancel screen: one finalized recording on
disk, default `success` scenario. -/
def recordedStore : Store :=
  { initialStore with state := .recorded 800 "file:rec1.m4a", files := ["file:rec1.m4a"] }

/-- Like `recordedStore` but with the service switched to the
`networkError` scenario. -/
def recordedNetStore : Store :=
  stepStore recordedStore (.setScenario .networkError)

/-- A recorder with a capture already active (counterexample input for
the `start()` contract). -/
def busyAudio : AudioState :=
  { recording := some "file:rec1.m4a", recordingDuration := 750 }

/-- A store mid-capture: listening at 500ms with an active recorder
(failing input for the `requestStart`-is-ignored contract). -/
def listeningStore : Store :=
  { initialStore with
      state := .listening 500
      audio := { recording := some "file:rec1.m4a", recordingDuration := 500 }
      ticking := true }

/-- A service already holding one open clarification turn. -/
def clarifyApi : StubVoiceApi :=
  { scenario := .clarification, clarificationState := [("cl1", 1)] }

/-- A first-turn transcription input: no clarification context. -/
def clarFirstInput : ProcessVoiceInput :=
  { audioUri := "file:a.m4a", mimeType := "audio/m4a", context := none }

/-- A follow-up input carrying the open clarification id of
`clarifyApi`. -/
def clarFollowupInput : ProcessVoiceInput :=
  { audioUri := "file:a.m4a", mimeType := "audio/m4a",
    context := some { clarificationId := "cl1", previousPrompt := "What time should I set it for?" } }

/-- An input carrying a clarification id the service does not know. -/
def clarStaleInput : ProcessVoiceInput :=
  { audioUri := "file:a.m4a", mimeType := "audio/m4a",
    context := some { clarificationId := "zz", previousPrompt := "p" } }

/-- `true` when event `e` fired from store `s` is a transcription request
that resolves `ok` (the only transcript-appending outcome): a
`saveRecording` from the Save/Cancel screen, or a `retrySendRecording`
from an error state retaining audio, whose `processVoice` call succeeds
with a transcript. -/
def resolvesOk (s : Store) (e : Event) : Bool :=
  match e with
  | .saveRecording env =>
    match s.state with
    | .recorded _ uri =>
      match (s.api.processVoice (VoiceStore.saveInput s uri) env.clarId).1 with
      | .ok (.ok _) => true
      | _ => false
    | _ => false
  | .retrySendRecording env =>
    match s.state with
    | .error _ _ (some uri) _ =>
      match (s.api.processVoice (VoiceStore.saveInput s uri) env.clarId).1 with
      | .ok (.ok _) => true
      | _ => false
    | _ => false
  | _ => false

/-- The audio-retention invariant of the claim set: the Save/Cancel
screen and every network-class error state hold a handle to a file that
is still on disk, and a server-class error state never retains a
handle. -/
def retentionInvB (s : Store) : Bool :=
  match s.state with
  | .recorded _ uri => decide (uri ∈ s.files)
  | .error _ .network (some u) _ => decide (u ∈ s.files)
  | .error _ .network none _ => false
  | .error _ .server a _ => a.isNone
  | _ => true

/-- Propositional form of `retentionInvB`. -/
def retentionInv (s : Store) : Prop := retentionInvB s = true

/-- `true` exactly on a server-class error state. -/
def AppState.isServerErrorB : AppState → Bool
  | .error _ .server _ _ => true
  | _ => false

/-- Like `recordedStore` but with the service switched to the
`serverError` scenario. -/
def recordedSrvStore : Store :=
  stepStore recordedStore (.setScenario .serverError)

/-- Claim C7: the scenario setting deterministically controls the next
`processVoice` outcome — `success` resolves Ok with the milk transcript,
`networkError` rejects with code NETWORK and its fixed message,
`serverError` rejects with code SERVER — and every `setScenario` call
clears the service-local clarification bookkeeping. -/
theorem scenario_determinism (api : StubVoiceApi) (input : ProcessVoiceInput)
    (fid : String) (sc : ApiScenario) :
    ({ api with scenario := ApiScenario.success }.processVoice input fid).1
      = .ok (.ok "Added \x27milk\x27 to your shopping list.") ∧
    ({ api with scenario := ApiScenario.networkError }.processVoice input fid).1
      = .error { code := .NETWORK, message := "Network error. Please try again." } ∧
    ({ api with scenario := ApiScenario.serverError }.processVoice input fid).1
      = .error { code := .SERVER, message := "Something went wrong. Please try again." } ∧
    (api.setScenario sc).clarificationState = [] ∧
    (api.setScenario sc).scenario = sc :=
  ⟨rfl, rfl, rfl, rfl, rfl⟩

/-- Claim C8: every delayed resumption re-checks the current state before
acting — the duration tick re-publishes `listening` only when the state
still is `listening`, and each auto-expire callback moves to `idle` only
when the state still is the variant it was scheduled for; in every other
state these callbacks leave the store untouched and issue no effect. -/
theorem stale_resumption_guards (s : Store) (d : Nat) :
    step s (.tick d)
      = (if s.state.isListeningB then ({ s with state := .listening d }, []) else (s, [])) ∧
    step s .autoExpireResult
      = (if s.state.isResultB then ({ s with state := .idle }, []) else (s, [])) ∧
    step s .autoExpireClarification
      = (if s.state.isClarificationB then ({ s with state := .idle }, []) else (s, [])) := by
  refine ⟨?_, ?_, ?_⟩ <;>
    cases hs : s.state <;>
      simp [step, VoiceStore.durationTick, VoiceStore.autoExpireResult,
        VoiceStore.autoExpireClarification, AppState.isListeningB, AppState.isResultB,
        AppState.isClarificationB, hs]

/-- Claim C9 counterexample: `AudioService.startRecording` called while a
capture is active does not fail with an AlreadyRecording error — it
resolves Ok and leaves the recorder state (including the duration
counter) untouched. -/
theorem start_already_recording_counterexample :
    (AudioService.startRecording busyAudio "file:new.m4a" false).1.isOk = true ∧
    (AudioService.startRecording busyAudio "file:new.m4a" false).1 = Except.ok () ∧
    (AudioService.startRecording busyAudio "file:new.m4a" false).2 = busyAudio :=
  ⟨rfl, rfl, rfl⟩

/-- Claim C9 (amended): `startRecording` while a capture is already
active is a silent no-op that resolves Ok without touching the recorder
state; otherwise (absent a platform fault) it begins capturing and resets
the internal duration counter to 0. -/
theorem start_recording_silent_noop (a : AudioState) (uri : String) :
    AudioService.startRecording a uri false
      = (Except.ok (),
         if a.recording.isSome then a
         else { recording := some uri, recordingDuration := 0 }) := by
  cases hr : a.recording <;> simp [AudioService.startRecording, hr]

/-- Claim C10: `setScenario` changes only the `currentScenario` field and
the service (whose clarification map is cleared); the capture state, the
transcript history, the files on disk, the recorder, and the pending
store-level clarification context are untouched — so the next
transcription request still attaches the pending clarificationId. -/
theorem setScenario_frame (s : Store) (sc : ApiScenario) (uri : String) :
    (stepStore s (.setScenario sc)).state = s.state ∧
    (stepStore s (.setScenario sc)).transcripts = s.transcripts ∧
    (stepStore s (.setScenario sc)).clarificationContext = s.clarificationContext ∧
    (stepStore s (.setScenario sc)).files = s.files ∧
    (stepStore s (.setScenario sc)).audio = s.audio ∧
    (stepStore s (.setScenario sc)).currentScenario = sc ∧
    (stepStore s (.setScenario sc)).api
      = { scenario := sc, clarificationState := [] } ∧
    VoiceStore.saveInput (stepStore s (.setScenario sc)) uri = VoiceStore.saveInput s uri ∧
    (VoiceStore.saveInput (stepStore s (.setScenario sc)) uri).context
      = s.clarificationContext ∧
    stepEffects s (.setScenario sc) = [] :=
  ⟨rfl, rfl, rfl, rfl, rfl, rfl, rfl, rfl, rfl, rfl⟩

/-- Claim C4 evaluated at the failing input: `startRecording` invoked
while listening is not ignored — it changes the capture state (ending in
`listening 0`) and issues a permission query and a recorder start call. -/
theorem requestStart_not_ignored_eval :
    stepStore listeningStore (.startRecording demoEnv) ≠ listeningStore ∧
    (stepStore listeningStore (.startRecording demoEnv)).state = .listening 0 ∧
    Effect.checkPermission ∈ stepEffects listeningStore (.startRecording demoEnv) ∧
    Effect.recorderStart ∈ stepEffects listeningStore (.startRecording demoEnv) := by
  decide

/-- Claim C5 counterexample: with the `success` scenario, `saveRecording`
from the Save/Cancel screen resolves Ok, but the recording's backing file
is not deleted — it stays on disk and is attached to the appended
transcript for playback. -/
theorem ok_keeps_recording_file :
    "file:rec1.m4a" ∈ (stepStore recordedStore (.saveRecording demoEnv)).files ∧
    Effect.deleteFile "file:rec1.m4a" ∉ stepEffects recordedStore (.saveRecording demoEnv) ∧
    (stepStore recordedStore (.saveRecording demoEnv)).state
      = .result "Added \x27milk\x27 to your shopping list." ∧
    (stepStore recordedStore (.saveRecording demoEnv)).transcripts
      = [{ id := "t1", text := "Added \x27milk\x27 to your shopping list.",
           timestamp := "ts1", audioUri := some "file:rec1.m4a" }] := by
  decide

/-- Helper: `stopRecording` called outside the `listening` state returns
the store untouched and issues no effect (the source's guard clause). -/
theorem stop_not_listening_noop (s : Store) (env : Env)
    (h : s.state.isListeningB = false) :
    VoiceStore.stopRecording s env = (s, []) := by
  cases hs : s.state
  case listening d => simp [hs, AppState.isListeningB] at h
  all_goals simp [VoiceStore.stopRecording, hs]

/-- Helper: after any `stopRecording` the store is never `listening`. -/
theorem stop_result_not_listening (s : Store) (env : Env) :
    ((VoiceStore.stopRecording s env).1).state.isListeningB = false := by
  cases hs : s.state <;>
    simp [VoiceStore.stopRecording, hs, AppState.isListeningB]
  case listening d =>
    cases hr : s.audio.recording <;>
      simp [hr, AppState.isListeningB]
    case some u =>
      cases hf : env.stopFault <;>
        simp [AudioService.stopRecording, hr, hf, AppState.isListeningB]

/-- Claim C3: `requestStop` is idempotent — outside `listening` it is a
no-op that changes neither the store (capture state, transcript history)
nor touches the recorder (no effects at all), and a second `stopRecording`
immediately after a first one always leaves the end state of the first
call unchanged. -/
theorem requestStop_idempotent (s : Store) (e1 e2 : Env) :
    (s.state.isListeningB = false → step s (Event.stopRecording e1) = (s, [])) ∧
    step (stepStore s (Event.stopRecording e1)) (Event.stopRecording e2)
      = (stepStore s (Event.stopRecording e1), []) := by
  constructor
  · intro h
    simpa [step] using stop_not_listening_noop s e1 h
  · have h := stop_result_not_listening s e1
    simpa [step, stepStore] using stop_not_listening_noop _ e2 h

/-- Claim C3 witness: concrete idempotence run from the initial store. -/
theorem requestStop_idempotent_witness :
    step initialStore (Event.stopRecording demoEnv) = (initialStore, []) ∧
    step (stepStore initialStore (Event.stopRecording demoEnv)) (Event.stopRecording demoEnv)
      = (stepStore initialStore (Event.stopRecording demoEnv), []) :=
  ⟨(requestStop_idempotent initialStore demoEnv demoEnv).1 (by decide),
   (requestStop_idempotent initialStore demoEnv demoEnv).2⟩

/-- Helper: `startRecording` never touches the transcript history. -/
theorem startRecording_transcripts (s : Store) (env : Env) :
    (VoiceStore.startRecording s env).1.transcripts = s.transcripts := by
  unfold VoiceStore.startRecording VoiceStore.startRecordingGranted
  repeat' split
  all_goals rfl

/-- Helper: `stopRecording` never touches the transcript history. -/
theorem stopRecording_transcripts (s : Store) (env : Env) :
    (VoiceStore.stopRecording s env).1.transcripts = s.transcripts := by
  cases hs : s.state <;> simp [VoiceStore.stopRecording, hs]
  case listening d =>
    cases hr : s.audio.recording <;> simp [hr]
    case some u =>
      cases hf : env.stopFault <;>
        simp [AudioService.stopRecording, hr, hf]

/-- Claim C2: for every event from every store, the transcript history is
either unchanged or grows by exactly one entry prepended at the front,
and the latter happens only when the event is a transcription request
that resolves `ok`; hence the history never shrinks and no existing entry
is removed or mutated by any path, failures included. -/
theorem transcripts_monotone (s : Store) (e : Event) :
    (stepStore s e).transcripts = s.transcripts ∨
    ∃ t, (stepStore s e).transcripts = t :: s.transcripts ∧ resolvesOk s e = true := by
  cases e with
  | startRecording env => exact Or.inl (startRecording_transcripts s env)
  | retryPermission env => exact Or.inl (startRecording_transcripts s env)
  | stopRecording env => exact Or.inl (stopRecording_transcripts s env)
  | saveRecording env =>
    cases hs : s.state
    case recorded d uri =>
      simp only [stepStore, step, VoiceStore.saveRecording, hs]
      cases hres : (s.api.processVoice (VoiceStore.saveInput s uri) env.clarId).1 with
      | ok r =>
        cases r with
        | ok tr =>
          exact Or.inr ⟨newTranscript env tr uri,
            by simp [VoiceStore.finishProcess, hres], by simp [resolvesOk, hs, hres]⟩
        | clarification p cid =>
          refine Or.inl ?_
          simp [VoiceStore.finishProcess, hres]
      | error err =>
        refine Or.inl ?_
        by_cases hc : err.code = .NETWORK <;>
          simp [VoiceStore.finishProcess, hres, hc]
    all_goals simp [stepStore, step, VoiceStore.saveRecording, hs]
  | retrySendRecording env =>
    cases hs : s.state
    case error m et a dOpt =>
      cases a with
      | none => simp [stepStore, step, VoiceStore.retrySendRecording, hs]
      | some uri =>
        simp only [stepStore, step, VoiceStore.retrySendRecording, hs]
        cases hres : (s.api.processVoice (VoiceStore.saveInput s uri) env.clarId).1 with
        | ok r =>
          cases r with
          | ok tr =>
            exact Or.inr ⟨newTranscript env tr uri,
              by simp [VoiceStore.finishProcess, hres], by simp [resolvesOk, hs, hres]⟩
          | clarification p cid =>
            refine Or.inl ?_
            simp [VoiceStore.finishProcess, hres]
        | error err =>
          refine Or.inl ?_
          by_cases hc : err.code = .NETWORK <;>
            simp [VoiceStore.finishProcess, hres, hc]
    all_goals simp [stepStore, step, VoiceStore.retrySendRecording, hs]
  | cancelRecording =>
    cases hs : s.state <;> simp [stepStore, step, VoiceStore.cancelRecording, hs]
  | dismissError =>
    cases hs : s.state <;> simp [stepStore, step, VoiceStore.dismissError, hs]
    case error m et a dOpt => cases a <;> simp
  | dismissPermissionDenied =>
    simp [stepStore, step, VoiceStore.dismissPermissionDenied]
  | setScenario sc =>
    simp [stepStore, step, VoiceStore.setScenario]
  | tick d =>
    cases hs : s.state <;> simp [stepStore, step, VoiceStore.durationTick, hs]
  | autoExpireResult =>
    cases hs : s.state <;> simp [stepStore, step, VoiceStore.autoExpireResult, hs]
  | autoExpireClarification =>
    cases hs : s.state <;> simp [stepStore, step, VoiceStore.autoExpireClarification, hs]

/-- Helper: a freshly finalized file is recorded as on disk. -/
theorem mem_insertFile_self (uri : String) (files : List String) :
    uri ∈ insertFile uri files := by
  unfold insertFile
  split
  · assumption
  · exact List.mem_cons_self uri files

/-- Helper: `deleteFile` removes every copy of the file. -/
theorem not_mem_deleteFile_self (uri : String) (files : List String) :
    uri ∉ deleteFile uri files := by
  simp [deleteFile, List.mem_filter]

/-- Helper: the retention invariant only looks at the capture state and
the files on disk. -/
theorem retentionInvB_congr {s s' : Store} (hstate : s'.state = s.state)
    (hfiles : s'.files = s.files) : retentionInvB s' = retentionInvB s := by
  unfold retentionInvB
  rw [hstate, hfiles]

/-- Helper: `startRecording` preserves the retention invariant (it never
produces a `recorded` or network-error state). -/
theorem retention_startRecording (s : Store) (env : Env) :
    retentionInv (VoiceStore.startRecording s env).1 := by
  unfold VoiceStore.startRecording VoiceStore.startRecordingGranted
  repeat' split
  all_goals simp [retentionInv, retentionInvB]

/-- Helper: `stopRecording` preserves the retention invariant; a
successful stop inserts the finalized file before exposing its handle. -/
theorem retention_stopRecording (s : Store) (env : Env) (h : retentionInv s) :
    retentionInv (VoiceStore.stopRecording s env).1 := by
  cases hs : s.state
  case listening d =>
    cases hr : s.audio.recording with
    | none => simp [VoiceStore.stopRecording, hs, hr, retentionInv, retentionInvB]
    | some u =>
      cases hf : env.stopFault <;>
        simp [VoiceStore.stopRecording, hs, hr, hf, AudioService.stopRecording,
          retentionInv, retentionInvB, mem_insertFile_self]
  all_goals simpa [VoiceStore.stopRecording, hs] using h

/-- Helper: the shared transcription continuation preserves the retention
invariant whenever the file being processed is on disk. -/
theorem retention_finishProcess (s : Store) (uri : String) (dur : Option Nat) (env : Env)
    (r : Except ProcessVoiceError ProcessVoiceResult) (api' : StubVoiceApi)
    (hmem : uri ∈ s.files) :
    retentionInv (VoiceStore.finishProcess s uri dur env r api').1 := by
  cases r with
  | ok pr =>
    cases pr <;> simp [VoiceStore.finishProcess, retentionInv, retentionInvB]
  | error err =>
    by_cases hc : err.code = .NETWORK <;>
      simp [VoiceStore.finishProcess, hc, retentionInv, retentionInvB, hmem]

/-- Helper: `saveRecording` preserves the retention invariant. -/
theorem retention_saveRecording (s : Store) (env : Env) (h : retentionInv s) :
    retentionInv (VoiceStore.saveRecording s env).1 := by
  cases hs : s.state
  case recorded d uri =>
    simp only [VoiceStore.saveRecording, hs]
    apply retention_finishProcess
    simp [retentionInv, retentionInvB, hs] at h
    simpa using h
  all_goals simpa [VoiceStore.saveRecording, hs] using h

/-- Helper: `retrySendRecording` preserves the retention invariant. -/
theorem retention_retrySendRecording (s : Store) (env : Env) (h : retentionInv s) :
    retentionInv (VoiceStore.retrySendRecording s env).1 := by
  cases hs : s.state
  case error m et a dOpt =>
    cases a with
    | none => simpa [VoiceStore.retrySendRecording, hs] using h
    | some uri =>
      cases et with
      | server =>
        exfalso
        simp [retentionInv, retentionInvB, hs] at h
      | network =>
        simp only [VoiceStore.retrySendRecording, hs]
        apply retention_finishProcess
        simp [retentionInv, retentionInvB, hs] at h
        simpa using h
  all_goals simpa [VoiceStore.retrySendRecording, hs] using h

/-- Helper: `cancelRecording` preserves the retention invariant. -/
theorem retention_cancelRecording (s : Store) (h : retentionInv s) :
    retentionInv (VoiceStore.cancelRecording s).1 := by
  cases hs : s.state
  case listening d => simp [VoiceStore.cancelRecording, hs, retentionInv, retentionInvB]
  case recorded d uri => simp [VoiceStore.cancelRecording, hs, retentionInv, retentionInvB]
  all_goals simpa [VoiceStore.cancelRecording, hs] using h

/-- Helper: `dismissError` always lands in `idle`. -/
theorem retention_dismissError (s : Store) :
    retentionInv (VoiceStore.dismissError s).1 := by
  cases hs : s.state
  case error m et a dOpt =>
    cases a <;> simp [VoiceStore.dismissError, hs, retentionInv, retentionInvB]
  all_goals simp [VoiceStore.dismissError, hs, retentionInv, retentionInvB]

/-- Helper: `durationTick` preserves the retention invariant. -/
theorem retention_durationTick (s : Store) (d : Nat) (h : retentionInv s) :
    retentionInv (VoiceStore.durationTick s d).1 := by
  cases hs : s.state
  case listening d0 => simp [VoiceStore.durationTick, hs, retentionInv, retentionInvB]
  all_goals simpa [VoiceStore.durationTick, hs] using h

/-- Helper: the `result` auto-expire preserves the retention invariant. -/
theorem retention_autoExpireResult (s : Store) (h : retentionInv s) :
    retentionInv (VoiceStore.autoExpireResult s).1 := by
  cases hs : s.state
  case result tr => simp [VoiceStore.autoExpireResult, hs, retentionInv, retentionInvB]
  all_goals simpa [VoiceStore.autoExpireResult, hs] using h

/-- Helper: the `clarification` auto-expire preserves the invariant. -/
theorem retention_autoExpireClarification (s : Store) (h : retentionInv s) :
    retentionInv (VoiceStore.autoExpireClarification s).1 := by
  cases hs : s.state
  case clarification p cid =>
    simp [VoiceStore.autoExpireClarification, hs, retentionInv, retentionInvB]
  all_goals simpa [VoiceStore.autoExpireClarification, hs] using h

/-- Claim C1: on every execution from the initial store, an error state
with kind Network always carries a live recording handle whose file is
still on disk, and an error state with kind Server never carries one —
stated as an inductive invariant (`retentionInvB`, which also keeps the
Save/Cancel screen's handle live) that holds initially and is preserved
by every event; additionally, whenever a transcription attempt from a
`recorded` or retained-error state ends in a server-class error, the
processed file has been deleted from disk. -/
theorem retention_law :
    retentionInv initialStore ∧
    (∀ s e, retentionInv s → retentionInv (stepStore s e)) ∧
    (∀ s env d uri, s.state = .recorded d uri →
      (stepStore s (.saveRecording env)).state.isServerErrorB = true →
      uri ∉ (stepStore s (.saveRecording env)).files) ∧
    (∀ s env m et dOpt uri, s.state = .error m et (some uri) dOpt →
      (stepStore s (.retrySendRecording env)).state.isServerErrorB = true →
      uri ∉ (stepStore s (.retrySendRecording env)).files) := by
  refine ⟨rfl, ?_, ?_, ?_⟩
  · intro s e h
    cases e with
    | startRecording env => exact retention_startRecording s env
    | retryPermission env => exact retention_startRecording s env
    | stopRecording env => exact retention_stopRecording s env h
    | saveRecording env => exact retention_saveRecording s env h
    | retrySendRecording env => exact retention_retrySendRecording s env h
    | cancelRecording => exact retention_cancelRecording s h
    | dismissError => exact retention_dismissError s
    | dismissPermissionDenied =>
      simp [stepStore, step, VoiceStore.dismissPermissionDenied, retentionInv, retentionInvB]
    | setScenario sc => exact (retentionInvB_congr rfl rfl).trans h
    | tick d => exact retention_durationTick s d h
    | autoExpireResult => exact retention_autoExpireResult s h
    | autoExpireClarification => exact retention_autoExpireClarification s h
  · intro s env d uri hs
    simp only [stepStore, step, VoiceStore.saveRecording, hs]
    cases hres : (s.api.processVoice (VoiceStore.saveInput s uri) env.clarId).1 with
    | ok r =>
      cases r <;>
        simp [VoiceStore.finishProcess, hres, AppState.isServerErrorB]
    | error err =>
      by_cases hc : err.code = .NETWORK <;>
        simp [VoiceStore.finishProcess, hres, hc, AppState.isServerErrorB,
          not_mem_deleteFile_self]
  · intro s env m et dOpt uri hs
    simp only [stepStore, step, VoiceStore.retrySendRecording, hs]
    cases hres : (s.api.processVoice (VoiceStore.saveInput s uri) env.clarId).1 with
    | ok r =>
      cases r <;>
        simp [VoiceStore.finishProcess, hres, AppState.isServerErrorB]
    | error err =>
      by_cases hc : err.code = .NETWORK <;>
        simp [VoiceStore.finishProcess, hres, hc, AppState.isServerErrorB,
          not_mem_deleteFile_self]

/-- Claim C1 witness: a network-failing transcription from the
Save/Cancel screen keeps its invariant (the error state retains the live
handle), and a server-failing one deletes the processed file. -/
theorem retention_law_witness :
    retentionInv (stepStore recordedNetStore (Event.saveRecording demoEnv)) ∧
    "file:rec1.m4a" ∉ (stepStore recordedSrvStore (Event.saveRecording demoEnv)).files :=
  ⟨retention_law.2.1 recordedNetStore (Event.saveRecording demoEnv) rfl,
   retention_law.2.2.1 recordedSrvStore demoEnv 800 "file:rec1.m4a" (by decide) (by decide)⟩

/-- Claim C5 (amended): when a transcription request issued from the
Processing state resolves Ok, the Controller transitions to
`result{transcript}`, prepends exactly one new Transcript to the history
(carrying the recording's handle for playback), clears the
ClarificationContext, and schedules the auto-return to idle; the
Recording's backing file is retained on disk — attached to the new
transcript — rather than deleted. -/
theorem ok_result_transition (s : Store) (d : Nat) (uri : String) (env : Env) (tr : String)
    (hs : s.state = .recorded d uri)
    (hok : (s.api.processVoice (VoiceStore.saveInput s uri) env.clarId).1
      = .ok (.ok tr)) :
    (stepStore s (.saveRecording env)).state = .result tr ∧
    (stepStore s (.saveRecording env)).transcripts
      = newTranscript env tr uri :: s.transcripts ∧
    (stepStore s (.saveRecording env)).clarificationContext = none ∧
    (stepStore s (.saveRecording env)).files = s.files ∧
    stepEffects s (.saveRecording env) = [Effect.apiCall, Effect.scheduleAuto] := by
  simp [stepStore, stepEffects, step, VoiceStore.saveRecording, hs, hok,
    VoiceStore.finishProcess]

/-- Claim C5 witness: the concrete success-scenario save from the
Save/Cancel screen. -/
theorem ok_result_transition_witness :
    (stepStore recordedStore (Event.saveRecording demoEnv)).state
      = .result "Added \x27milk\x27 to your shopping list." ∧
    (stepStore recordedStore (Event.saveRecording demoEnv)).transcripts
      = newTranscript demoEnv "Added \x27milk\x27 to your shopping list." "file:rec1.m4a"
          :: recordedStore.transcripts ∧
    (stepStore recordedStore (Event.saveRecording demoEnv)).clarificationContext = none ∧
    (stepStore recordedStore (Event.saveRecording demoEnv)).files = recordedStore.files ∧
    stepEffects recordedStore (Event.saveRecording demoEnv)
      = [Effect.apiCall, Effect.scheduleAuto] :=
  ok_result_transition recordedStore 800 "file:rec1.m4a" demoEnv
    "Added \x27milk\x27 to your shopping list." rfl rfl

/-- Claim C6: with the service configured for Clarify, a call without a
clarification context returns the clarification prompt under the freshly
generated id (which the service remembers); a subsequent call supplying a
remembered id returns Ok with the follow-up transcript, which differs
from the plain-success text; and a call supplying an unrecognized id is
treated as a fresh request — it returns a new clarification, never an
error. -/
theorem clarification_protocol (api : StubVoiceApi) (i1 i2 i3 : ProcessVoiceInput)
    (fid c2 c3 p2 p3 : String) (n : Nat)
    (hsc : api.scenario = ApiScenario.clarification)
    (h1 : i1.context = none)
    (h2 : i2.context = some { clarificationId := c2, previousPrompt := p2 })
    (hn : api.clarificationState.lookup c2 = some n) (hpos : 0 < n)
    (h3 : i3.context = some { clarificationId := c3, previousPrompt := p3 })
    (hstale : api.clarificationState.lookup c3 = none) :
    (api.processVoice i1 fid).1
      = .ok (.clarification "What time should I set it for?" fid) ∧
    (fid, 1) ∈ (api.processVoice i1 fid).2.clarificationState ∧
    (api.processVoice i2 fid).1 = .ok (.ok "Alarm set for 7:00 AM.") ∧
    "Alarm set for 7:00 AM." ≠ "Added \x27milk\x27 to your shopping list." ∧
    (api.processVoice i3 fid).1
      = .ok (.clarification "What time should I set it for?" fid) := by
  refine ⟨?_, ?_, ?_, by decide, ?_⟩ <;>
    simp [StubVoiceApi.processVoice, StubVoiceApi.handleClarification,
      hsc, h1, h2, h3, hn, hstale, hpos]

/-- Claim C6 witness: the concrete clarification round trip against
`clarifyApi`. -/
theorem clarification_protocol_witness :
    (clarifyApi.processVoice clarFirstInput "cl2").1
      = .ok (.clarification "What time should I set it for?" "cl2") ∧
    ("cl2", 1) ∈ (clarifyApi.processVoice clarFirstInput "cl2").2.clarificationState ∧
    (clarifyApi.processVoice clarFollowupInput "cl2").1
      = .ok (.ok "Alarm set for 7:00 AM.") ∧
    "Alarm set for 7:00 AM." ≠ "Added \x27milk\x27 to your shopping list." ∧
    (clarifyApi.processVoice clarStaleInput "cl2").1
      = .ok (.clarification "What time should I set it for?" "cl2") :=
  clarification_protocol clarifyApi clarFirstInput clarFollowupInput clarStaleInput
    "cl2" "cl1" "zz" "What time should I set it for?" "p" 1
    rfl rfl rfl rfl (by decide) rfl rfl
